import Mathlib

/-!
Shallow embedding of the `acquisitions` user-management REST API.

The embedding follows the JavaScript source file by file:
  * `src/validations/users.validation.js` — the zod schemas `userIdSchema`
    and `updateUserSchema` (zod processes checks and transforms in chained
    order, collecting issues per field);
  * `src/utils/format.js` — `formatValidationError`;
  * `src/middleware/auth.middleware.js` — `authenticateToken`, `requireRole`;
  * `src/services/users.service.js` — `getALLUsers`, `getUserById`,
    `updateUser`, `deleteUser`, with the database modelled as a list of rows
    and the drizzle column projections modelled as explicit field lists;
  * `src/controllers/users.controller.js` — the four request handlers;
  * `src/routes/users.routes.js` — the GET /users middleware chain.

JavaScript strings are modelled as Lean `String` (the inputs at issue are
ASCII, where JS UTF-16 semantics and Lean semantics agree); JS numbers are
modelled as `JSNum` (NaN, the infinities, or a rational — no rounding
behaviour is involved in any claim).  `jwttoken.verify` lives in a file
outside the in-scope core, so it is a parameter `String → Option Claim`
(`none` models a thrown verification error).
-/

namespace Acquisitions

/-- Result of the JS `Number(...)` coercion performed by `z.coerce.number()`:
NaN, an infinity, or a finite value (modelled as a rational). -/
inductive JSNum where
  | nan : JSNum
  | inf : JSNum
  | negInf : JSNum
  | num : ℚ → JSNum
deriving DecidableEq, Repr

/-- Whether `Number.isInteger` holds of the coerced value. -/
def JSNum.isInteger : JSNum → Bool
  | .num q => q.isInt
  | _ => false

/-- Whether the JS `>` comparison with `0` holds (used by zod `.positive()`);
`NaN > 0` is false in JS. -/
def JSNum.isPositive : JSNum → Bool
  | .num q => 0 < q
  | .inf => true
  | _ => false

/-- One zod validation issue: the path of the offending field and a message. -/
structure Issue where
  path : List String
  message : String
deriving DecidableEq, Repr

/-! ### users.validation.js : userIdSchema -/

/-- Embedding of `userIdSchema = z.object({ id: z.coerce.number().int()
.positive('User ID must be a positive integer') })` applied to
`req.params`.  The argument is the result of the `Number(...)` coercion of
the raw path parameter (`.nan` for a non-numeric string).  zod aborts on a
NaN type failure and otherwise runs the `int` and `positive` checks in
order, collecting an issue for each failed check. -/
def userIdSchema (raw : JSNum) : Except (List Issue) ℤ :=
  match raw with
  | .nan => .error [⟨["id"], "Expected number, received nan"⟩]
  | .inf =>
      .error [⟨["id"], "Expected integer, received float"⟩]
  | .negInf =>
      .error [⟨["id"], "Expected integer, received float"⟩,
              ⟨["id"], "User ID must be a positive integer"⟩]
  | .num q =>
      let issues :=
        (if q.isInt then [] else [⟨["id"], "Expected integer, received float"⟩]) ++
        (if 0 < q then [] else [Issue.mk ["id"] "User ID must be a positive integer"])
      if issues.isEmpty then .ok q.num else .error issues

/-! ### users.validation.js : updateUserSchema

String helpers mirroring the JS built-ins used by the zod transforms
(`.trim()`, `.toLowerCase()`); on the ASCII inputs involved they agree with
the JS semantics. -/

/-- ASCII fragment of the whitespace class trimmed by JS `String.prototype.trim`. -/
def isJsWhitespace (c : Char) : Bool :=
  c = ' ' || c = '\t' || c = '\n' || c = '\r' || c = '\x0b' || c = '\x0c'

/-- JS `String.prototype.trim` on the character list. -/
def jsTrimList (l : List Char) : List Char :=
  ((l.dropWhile isJsWhitespace).reverse.dropWhile isJsWhitespace).reverse

/-- JS `String.prototype.trim`. -/
def jsTrim (s : String) : String := String.mk (jsTrimList s.data)

/-- JS `String.prototype.toLowerCase` (ASCII range). -/
def jsToLowerCase (s : String) : String := String.mk (s.data.map Char.toLower)

/-- Characters allowed anywhere in the local part of zod's email regular
expression `[A-Z0-9_'+\-\.]` (with the `i` flag). -/
def isLocalChar (c : Char) : Bool :=
  c.isAlphanum || c = '_' || c = '\'' || c = '+' || c = '-' || c = '.'

/-- Characters allowed as the final local-part character `[A-Z0-9_+-]`. -/
def isLocalLastChar (c : Char) : Bool :=
  c.isAlphanum || c = '_' || c = '+' || c = '-'

/-- Splits at the unique `@`, failing when the count of `@` differs from one
(neither character class of the regex admits `@`). -/
def splitAtSign : List Char → Option (List Char × List Char)
  | [] => none
  | '@' :: rest => if rest.contains '@' then none else some ([], rest)
  | c :: rest =>
      match splitAtSign rest with
      | none => none
      | some (l, d) => some (c :: l, d)

/-- Splits a character list on `.` into dot-free segments. -/
def splitOnDot : List Char → List (List Char)
  | [] => [[]]
  | '.' :: rest => [] :: splitOnDot rest
  | c :: rest =>
      match splitOnDot rest with
      | [] => [[c]]
      | p :: ps => (c :: p) :: ps

/-- The string contains no occurrence of `..` (the regex lookahead `(?!.*\.\.)`). -/
def noDoubleDot : List Char → Bool
  | '.' :: '.' :: _ => false
  | _ :: rest => noDoubleDot rest
  | [] => true

/-- One domain label `[A-Z0-9][A-Z0-9\-]*` of the regex (with the `i` flag). -/
def isDomainLabel (l : List Char) : Bool :=
  match l with
  | [] => false
  | c :: rest => c.isAlphanum && rest.all (fun d => d.isAlphanum || d = '-')

/-- The final top-level label `[A-Z]{2,}` (with the `i` flag). -/
def isTld (l : List Char) : Bool :=
  decide (2 ≤ l.length) && l.all Char.isAlpha

/-- The domain `([A-Z0-9][A-Z0-9\-]*\.)+[A-Z]{2,}`: at least one ordinary
label, then the top-level label. -/
def isEmailDomain (l : List Char) : Bool :=
  let parts := splitOnDot l
  decide (2 ≤ parts.length) && parts.dropLast.all isDomainLabel && isTld (parts.getLastD [])

/-- The local part `(?!\.)([A-Z0-9_'+\-\.]*)[A-Z0-9_+-]`: nonempty, not
starting with a dot, every character in the class, final character in the
restricted class. -/
def isEmailLocal (l : List Char) : Bool :=
  match l with
  | [] => false
  | c :: _ => c ≠ '.' && l.all isLocalChar &&
      (match l.getLast? with
       | some d => isLocalLastChar d
       | none => false)

/-- Embedding of zod's email regular expression
`^(?!\.)(?!.*\.\.)([A-Z0-9_'+\-\.]*)[A-Z0-9_+-]@([A-Z0-9][A-Z0-9\-]*\.)+[A-Z]{2,}$`
with the `i` flag, as tested by `z.string().email()` on the raw (untrimmed)
input string. -/
def zodIsEmail (s : String) : Bool :=
  match splitAtSign s.data with
  | none => false
  | some (loc, dom) =>
      noDoubleDot s.data && isEmailLocal loc && isEmailDomain dom

/-- The role enumeration `z.enum(['user', 'admin'])`. -/
inductive Role where
  | user : Role
  | admin : Role
deriving DecidableEq, Repr

/-- The string a `Role` denotes. -/
def Role.toStr : Role → String
  | .user => "user"
  | .admin => "admin"

/-- The raw JSON body of a PUT /users/:id request as the schema inspects it:
each known key is absent (`none` — also covering an explicit `undefined`,
which zod's `.optional()` treats the same way for the checks below) or a
string, and `extra` carries the unknown keys that `z.object` strips. -/
structure RawBody where
  name : Option String
  email : Option String
  role : Option String
  extra : List (String × String)
deriving DecidableEq, Repr

/-- Output type of `updateUserSchema`: only the three declared keys survive
parsing (unknown keys are stripped by `z.object`). -/
structure UserUpdates where
  name : Option String
  email : Option String
  role : Option Role
deriving DecidableEq, Repr

/-- Checks of `z.string().min(2).max(255).trim()` in chained order: `min`
and `max` run on the raw string, the `trim` transform only runs afterwards. -/
def nameChecks (s : String) : List String :=
  (if 2 ≤ s.length then [] else ["String must contain at least 2 character(s)"]) ++
  (if s.length ≤ 255 then [] else ["String must contain at most 255 character(s)"])

/-- Value produced by the `name` chain when all checks pass. -/
def nameValue (s : String) : String := jsTrim s

/-- Checks of `z.string().email().max(255).toLowerCase().trim()` in chained
order: the email regular expression and `max` run on the raw string; the
`toLowerCase` and `trim` transforms only run afterwards. -/
def emailChecks (s : String) : List String :=
  (if zodIsEmail s then [] else ["Invalid email"]) ++
  (if s.length ≤ 255 then [] else ["String must contain at most 255 character(s)"])

/-- Value produced by the `email` chain when all checks pass. -/
def emailValue (s : String) : String := jsTrim (jsToLowerCase s)

/-- Parse of `z.enum(['user', 'admin'])`. -/
def parseRole (s : String) : Option Role :=
  if s = "user" then some Role.user
  else if s = "admin" then some Role.admin
  else none

/-- Embedding of `updateUserSchema`: the object of three optional fields,
each parsed by its chain (issues carry the field name as path), followed by
the object-level `.refine(data => Object.values(data).some(v => v !==
undefined))` which rejects with a single path-less issue when every field is
absent.  zod only runs the refinement once the base object parsed cleanly. -/
def updateUserSchema (b : RawBody) : Except (List Issue) UserUpdates :=
  let issues :=
    (match b.name with
     | none => []
     | some s => (nameChecks s).map (fun m => Issue.mk ["name"] m)) ++
    (match b.email with
     | none => []
     | some s => (emailChecks s).map (fun m => Issue.mk ["email"] m)) ++
    (match b.role with
     | none => []
     | some s =>
        match parseRole s with
        | some _ => []
        | none => [Issue.mk ["role"] "Invalid enum value. Expected 'user' | 'admin'"])
  if issues.isEmpty then
    let d : UserUpdates :=
      ⟨b.name.map nameValue, b.email.map emailValue, b.role.bind parseRole⟩
    if d.name.isSome || d.email.isSome || d.role.isSome then .ok d
    else .error [Issue.mk [] "At least one field must be provided for update"]
  else .error issues

/-! ### utils/format.js -/

/-- Embedding of `formatValidationError(errors)`: `none` models a missing
`errors`/`errors.issues`; otherwise the issues array is flattened to its
messages and joined. -/
def formatValidationError : Option (List Issue) → String
  | none => "Validation failed"
  | some issues =>
      "Invalid input: " ++ String.intercalate ", " (issues.map Issue.message)

/-! ### models/user.model.js : the users table -/

/-- One row of the `users` table (`user.model.js`). Timestamps are modelled
as integers. -/
structure UserRow where
  id : ℤ
  name : String
  email : String
  password : String
  role : String
  created_at : ℤ
  updated_at : ℤ
deriving DecidableEq, Repr

/-- Column names of the `users` table, used to state which columns a drizzle
`select`/`returning` projection exposes. -/
inductive Field where
  | id | name | email | password | role | created_at | updated_at
deriving DecidableEq, Repr

/-- A column value in a projected row. -/
inductive Value where
  | int : ℤ → Value
  | str : String → Value
deriving DecidableEq, Repr

/-- The six-column projection `{ id, email, name, role, created_at,
updated_at }` used by `getALLUsers`, `getUserById` and `updateUser`'s
`.returning`. -/
def selectPublic (u : UserRow) : List (Field × Value) :=
  [(Field.id, Value.int u.id), (Field.email, Value.str u.email),
   (Field.name, Value.str u.name), (Field.role, Value.str u.role),
   (Field.created_at, Value.int u.created_at),
   (Field.updated_at, Value.int u.updated_at)]

/-- The four-column projection `{ id, email, name, role }` used by
`deleteUser`'s `.returning`. -/
def selectDeleted (u : UserRow) : List (Field × Value) :=
  [(Field.id, Value.int u.id), (Field.email, Value.str u.email),
   (Field.name, Value.str u.name), (Field.role, Value.str u.role)]

/-! ### services/users.service.js

The database is a list of rows; `db.select().from(users).where(eq(users.id,
id)).limit(1)` is `(db.filter (·.id = id)).head?`, and a service throw is an
`Except.error` carrying the JS error message. -/

/-- Embedding of `getALLUsers()`. -/
def getALLUsers (db : List UserRow) : List (List (Field × Value)) :=
  db.map selectPublic

/-- Embedding of `getUserById(id)`: select with `limit(1)`, throwing
`'User not found'` when no row matches, else returning the projected row. -/
def getUserById (db : List UserRow) (id : ℤ) : Except String (List (Field × Value)) :=
  match (db.filter (fun u => u.id = id)).head? with
  | none => .error "User not found"
  | some u => .ok (selectPublic u)

/-- The drizzle `.set({...updates, updated_at: new Date()})` applied to one
matching row: fields absent from `updates` (JS `undefined`) are ignored by
`set`, present fields overwrite, and `updated_at` is stamped with `now`. -/
def applyUpdates (u : UserRow) (upd : UserUpdates) (now : ℤ) : UserRow :=
  { u with
    name := upd.name.getD u.name
    email := upd.email.getD u.email
    role := (upd.role.map Role.toStr).getD u.role
    updated_at := now }

/-- Embedding of `updateUser(id, updates)`: existence check via
`getUserById`, then `db.update(users).set(...).where(eq(users.id, id))
.returning(selectPublic columns)`; the result is the new database together
with `updatedUser[0]` (`none` models the JS `undefined` of indexing an empty
array). -/
def updateUser (db : List UserRow) (id : ℤ) (upd : UserUpdates) (now : ℤ) :
    Except String (List UserRow × Option (List (Field × Value))) :=
  match getUserById db id with
  | .error e => .error e
  | .ok _ =>
      let db2 := db.map (fun u => if u.id = id then applyUpdates u upd now else u)
      let returned :=
        (db.filter (fun u => u.id = id)).map (fun u => selectPublic (applyUpdates u upd now))
      .ok (db2, returned.head?)

/-- Embedding of `deleteUser(id)`: existence check via `getUserById`, then
`db.delete(users).where(eq(users.id, id)).returning({id, email, name,
role})`; the result is the new database together with `deletedUser[0]`. -/
def deleteUser (db : List UserRow) (id : ℤ) :
    Except String (List UserRow × Option (List (Field × Value))) :=
  match getUserById db id with
  | .error e => .error e
  | .ok _ =>
      let db2 := db.filter (fun u => ¬ u.id = id)
      let returned := (db.filter (fun u => u.id = id)).map selectDeleted
      .ok (db2, returned.head?)

/-! ### middleware/auth.middleware.js -/

/-- The decoded identity claim attached to `req.user` (`id` and `role` are
whatever the token payload carried). -/
structure Claim where
  id : ℤ
  role : String
deriving DecidableEq, Repr

/-- An HTTP response as the handlers build it: the status code and the JSON
body keys the controllers actually set (`none` marks a key absent from the
body). -/
structure Response where
  status : ℕ
  error : Option String := none
  message : Option String := none
  details : Option String := none
  user : Option (Option (List (Field × Value))) := none
  users : Option (List (List (Field × Value))) := none
  count : Option ℕ := none
deriving DecidableEq, Repr

/-- Outcome of `authenticateToken`: an immediate response, or `next()` with
the decoded claim attached to `req.user`. -/
inductive AuthOutcome where
  | respond : Response → AuthOutcome
  | next : Claim → AuthOutcome
deriving DecidableEq, Repr

/-- Embedding of `authenticateToken(req, res, next)`; `verify` is
`jwttoken.verify` (outside the core: `none` models a thrown verification
error), `cookieToken` is `req.cookies?.token`. -/
def authenticateToken (verify : String → Option Claim) (cookieToken : Option String) :
    AuthOutcome :=
  match cookieToken with
  | none => .respond { status := 401, error := some "Access denied",
                       message := some "No token provided" }
  | some t =>
      match verify t with
      | none => .respond { status := 401, error := some "Access denied",
                           message := some "Invalid token" }
      | some decoded => .next decoded

/-- Outcome of the `requireRole` middleware: an immediate response or `next()`. -/
inductive GuardOutcome where
  | respond : Response → GuardOutcome
  | next : GuardOutcome
deriving DecidableEq, Repr

/-- Embedding of `requireRole(roles)(req, res, next)`; `user` is `req.user`
(absent when authentication has not run). -/
def requireRole (roles : List String) (user : Option Claim) : GuardOutcome :=
  match user with
  | none => .respond { status := 401, error := some "Access denied",
                       message := some "Authentication required" }
  | some c =>
      if roles ≠ [] ∧ ¬ c.role ∈ roles then
        .respond { status := 403, error := some "Forbidden",
                   message := some "Insufficient permissions" }
      else .next

/-! ### controllers/users.controller.js -/

/-- Outcome of a request handler: a response sent, or an error passed to
`next(e)` (the generic error middleware). -/
inductive HandlerResult where
  | respond : Response → HandlerResult
  | passError : String → HandlerResult
deriving DecidableEq, Repr

/-- A GET/DELETE /users/:id request after authentication: the `Number(...)`
coercion of `req.params.id`, and `req.user`. -/
structure ByIdRequest where
  paramsId : JSNum
  user : Claim
deriving Repr

/-- A PUT /users/:id request after authentication. -/
structure UpdateRequest where
  paramsId : JSNum
  body : RawBody
  user : Claim
deriving Repr

/-- The 404 body shared by the three by-id handlers' `'User not found'`
catch branches. -/
def userNotFoundResponse : Response :=
  { status := 404, error := some "User not found",
    message := some "The requested user does not exist" }

/-- The 400 body built from a failed schema parse. -/
def validationFailedResponse (issues : List Issue) : Response :=
  { status := 400, error := some "Validation failed",
    details := some (formatValidationError (some issues)) }

/-- Embedding of `fetchAllUsers` (the database read cannot fail in the
model, so the catch branch is unreachable). -/
def fetchAllUsers (db : List UserRow) : HandlerResult :=
  .respond { status := 200, message := some "Successful retrieved users",
             users := some (getALLUsers db),
             count := some (getALLUsers db).length }

/-- Embedding of `fetchUserById`: id validation (400 on failure), then
`getUserById`, mapping a `'User not found'` throw to 404 and any other
throw to `next(e)`. -/
def fetchUserById (db : List UserRow) (req : ByIdRequest) : HandlerResult :=
  match userIdSchema req.paramsId with
  | .error issues => .respond (validationFailedResponse issues)
  | .ok id =>
      match getUserById db id with
      | .error e =>
          if e = "User not found" then .respond userNotFoundResponse
          else .passError e
      | .ok u => .respond { status := 200,
                            message := some "User retrieved successfully",
                            user := some (some u) }

/-- Embedding of `updateUserById`, returning the handler outcome together
with the database after the call (unchanged whenever the service was not
reached or threw).  The steps in source order: id validation, body
validation, the own-record-or-admin check, the role-change-requires-admin
check (`updates.role` is truthy exactly when the parsed `role` is present),
then `updateUser` with `NotFound` mapped to 404. -/
def updateUserById (db : List UserRow) (now : ℤ) (req : UpdateRequest) :
    HandlerResult × List UserRow :=
  match userIdSchema req.paramsId with
  | .error issues => (.respond (validationFailedResponse issues), db)
  | .ok id =>
      match updateUserSchema req.body with
      | .error issues => (.respond (validationFailedResponse issues), db)
      | .ok updates =>
          if req.user.id ≠ id ∧ req.user.role ≠ "admin" then
            (.respond { status := 403, error := some "Forbidden",
                        message := some "You can only update your own information" }, db)
          else if updates.role.isSome ∧ req.user.role ≠ "admin" then
            (.respond { status := 403, error := some "Forbidden",
                        message := some "Only admin users can change user roles" }, db)
          else
            match updateUser db id updates now with
            | .error e =>
                if e = "User not found" then (.respond userNotFoundResponse, db)
                else (.passError e, db)
            | .ok (db2, updatedUser) =>
                (.respond { status := 200,
                            message := some "User updated successfully",
                            user := some updatedUser }, db2)

/-- Embedding of `deleteUserById`, returning the handler outcome together
with the database after the call: id validation, the
own-account-or-admin check, then `deleteUser` with `NotFound` mapped to 404. -/
def deleteUserById (db : List UserRow) (req : ByIdRequest) :
    HandlerResult × List UserRow :=
  match userIdSchema req.paramsId with
  | .error issues => (.respond (validationFailedResponse issues), db)
  | .ok id =>
      if req.user.id ≠ id ∧ req.user.role ≠ "admin" then
        (.respond { status := 403, error := some "Forbidden",
                    message := some "You can only delete your own account" }, db)
      else
        match deleteUser db id with
        | .error e =>
            if e = "User not found" then (.respond userNotFoundResponse, db)
            else (.passError e, db)
        | .ok (db2, deletedUser) =>
            (.respond { status := 200,
                        message := some "User deleted successfully",
                        user := some deletedUser }, db2)

/-! ### routes/users.routes.js -/

/-- The GET /users chain `authenticateToken, requireRole(['admin']),
fetchAllUsers` for a request carrying `cookieToken`. -/
def getUsersRoute (verify : String → Option Claim) (db : List UserRow)
    (cookieToken : Option String) : HandlerResult :=
  match authenticateToken verify cookieToken with
  | .respond r => .respond r
  | .next claim =>
      match requireRole ["admin"] (some claim) with
      | .respond r => .respond r
      | .next => fetchAllUsers db

/-! ### Sample data used by concrete witnesses -/

/-- A sample stored row. -/
def sampleRow : UserRow :=
  { id := 1, name := "Alice", email := "alice@example.com",
    password := "hash", role := "user", created_at := 10, updated_at := 10 }

/-- A verifier that rejects every token. -/
def verifyNever : String → Option Claim := fun _ => none

/-- A verifier that accepts every token as the given claim. -/
def verifyConst (c : Claim) : String → Option Claim := fun _ => some c

/-! ### Helper lemmas -/

/-- The head of a list, when present, is a member. -/
theorem head?_mem {α : Type} {l : List α} {a : α} (h : l.head? = some a) : a ∈ l := by
  cases l with
  | nil => cases h
  | cons x xs =>
      injection h with h
      subst h
      exact List.mem_cons_self x xs

/-- When no row has the requested id, the select comes back empty and
`getUserById` throws `'User not found'`. -/
theorem getUserById_notFound (db : List UserRow) (id : ℤ)
    (h : ∀ u ∈ db, ¬ u.id = id) :
    getUserById db id = .error "User not found" := by
  have hf : db.filter (fun u => u.id = id) = [] := by
    rw [List.filter_eq_nil_iff]
    intro u hu
    simpa using h u hu
  simp [getUserById, hf]

/-- A successful `getUserById` returns the six-column projection of some row. -/
theorem getUserById_ok_shape (db : List UserRow) (id : ℤ)
    (r : List (Field × Value)) (h : getUserById db id = .ok r) :
    ∃ u, r = selectPublic u := by
  unfold getUserById at h
  cases hh : (db.filter (fun u => u.id = id)).head? with
  | none => rw [hh] at h; cases h
  | some u => rw [hh] at h; injection h with h; exact ⟨u, h.symm⟩

/-! ## Claims -/

/-- C2: the authentication step returns `401 Access denied / No token
provided` when the `token` cookie is absent, `401 Access denied / Invalid
token` when the cookie is present but verification fails, and otherwise
attaches the decoded claim and continues the pipeline. -/
theorem auth_token_dispatch (verify : String → Option Claim)
    (cookieToken : Option String) :
    (cookieToken = none →
      authenticateToken verify cookieToken =
        .respond { status := 401, error := some "Access denied",
                   message := some "No token provided" }) ∧
    (∀ t, cookieToken = some t → verify t = none →
      authenticateToken verify cookieToken =
        .respond { status := 401, error := some "Access denied",
                   message := some "Invalid token" }) ∧
    (∀ t c, cookieToken = some t → verify t = some c →
      authenticateToken verify cookieToken = .next c) := by
  refine ⟨?_, ?_, ?_⟩
  · rintro rfl
    rfl
  · rintro t rfl hv
    simp [authenticateToken, hv]
  · rintro t c rfl hv
    simp [authenticateToken, hv]

/-- Witness for C2 at concrete inputs. -/
theorem auth_token_dispatch_witness :
    authenticateToken verifyNever none =
      .respond { status := 401, error := some "Access denied",
                 message := some "No token provided" } ∧
    authenticateToken verifyNever (some "tok") =
      .respond { status := 401, error := some "Access denied",
                 message := some "Invalid token" } ∧
    authenticateToken (verifyConst ⟨5, "user"⟩) (some "tok") =
      .next ⟨5, "user"⟩ :=
  ⟨(auth_token_dispatch verifyNever none).1 rfl,
   (auth_token_dispatch verifyNever (some "tok")).2.1 "tok" rfl rfl,
   (auth_token_dispatch (verifyConst ⟨5, "user"⟩) (some "tok")).2.2 "tok" ⟨5, "user"⟩ rfl rfl⟩

/-- C3: an authenticated request whose role is outside a non-empty allowed
set gets `403 Forbidden / Insufficient permissions`; an empty allowed set
passes every authenticated role; and on the GET /users chain (allowed set
`['admin']`) every authenticated non-admin identity receives the 403. -/
theorem require_role_guard (roles : List String) (c : Claim) :
    (roles ≠ [] → c.role ∉ roles →
      requireRole roles (some c) =
        .respond { status := 403, error := some "Forbidden",
                   message := some "Insufficient permissions" }) ∧
    (roles = [] → requireRole roles (some c) = .next) ∧
    (∀ (verify : String → Option Claim) (db : List UserRow) (token : String),
      verify token = some c → c.role ≠ "admin" →
      getUsersRoute verify db (some token) =
        .respond { status := 403, error := some "Forbidden",
                   message := some "Insufficient permissions" }) := by
  refine ⟨?_, ?_, ?_⟩
  · intro h1 h2
    simp [requireRole, h1, h2]
  · rintro rfl
    simp [requireRole]
  · intro verify db token hv hr
    simp [getUsersRoute, authenticateToken, hv, requireRole, hr]

/-- Witness for C3 at concrete inputs. -/
theorem require_role_guard_witness :
    requireRole ["admin"] (some ⟨5, "user"⟩) =
      .respond { status := 403, error := some "Forbidden",
                 message := some "Insufficient permissions" } ∧
    requireRole [] (some ⟨5, "user"⟩) = .next ∧
    getUsersRoute (verifyConst ⟨5, "user"⟩) [] (some "tok") =
      .respond { status := 403, error := some "Forbidden",
                 message := some "Insufficient permissions" } :=
  ⟨(require_role_guard ["admin"] ⟨5, "user"⟩).1 (by decide) (by decide),
   (require_role_guard [] ⟨5, "user"⟩).2.1 rfl,
   (require_role_guard ["admin"] ⟨5, "user"⟩).2.2 (verifyConst ⟨5, "user"⟩) [] "tok"
     rfl (by decide)⟩

/-- C5 counterexample: the update schema runs the email format check on the
raw string before the `trim` transform, so the whitespace-padded
`"  Foo@Bar.COM "` is rejected with `Invalid email` rather than accepted
and normalized. -/
theorem email_whitespace_rejected :
    updateUserSchema ⟨none, some "  Foo@Bar.COM ", none, []⟩ =
      .error [⟨["email"], "Invalid email"⟩] := by
  rfl

/-- C5 amended: an email without surrounding whitespace, such as the
mixed-case `"Foo@Bar.COM"`, is accepted and normalized (lower-cased, then
trimmed) to `"foo@bar.com"`; the whitespace-padded variant fails the email
format check, which runs before the trim transform. -/
theorem email_normalization :
    updateUserSchema ⟨none, some "Foo@Bar.COM", none, []⟩ =
      .ok ⟨none, some "foo@bar.com", none⟩ ∧
    zodIsEmail "  Foo@Bar.COM " = false := by
  exact ⟨rfl, rfl⟩

/-- C8: when all three optional fields are absent, the object-level
refinement rejects with the single cross-field issue (empty path — the rule
is over the whole object, not any field), whatever unknown keys the body
carried. -/
theorem update_schema_requires_one_field (b : RawBody)
    (hn : b.name = none) (he : b.email = none) (hr : b.role = none) :
    updateUserSchema b =
      .error [⟨[], "At least one field must be provided for update"⟩] := by
  simp [updateUserSchema, hn, he, hr]

/-- Witness for C8: the empty body (with an unknown key) is rejected by the
cross-field rule. -/
theorem update_schema_requires_one_field_witness :
    updateUserSchema ⟨none, none, none, [("unknown", "value")]⟩ =
      .error [⟨[], "At least one field must be provided for update"⟩] :=
  update_schema_requires_one_field ⟨none, none, none, [("unknown", "value")]⟩ rfl rfl rfl

/-- C1: with a validated id and body, the update handler answers 403 with
the database untouched (the service is never reached) whenever the caller
is neither the target user nor an admin; and whenever the validated body
carries a `role` field and the caller is not an admin, it answers 403 with
the database untouched even if the caller's id equals the target id. -/
theorem update_authorization (db : List UserRow) (now : ℤ) (req : UpdateRequest)
    (id : ℤ) (updates : UserUpdates)
    (hid : userIdSchema req.paramsId = .ok id)
    (hbody : updateUserSchema req.body = .ok updates) :
    (req.user.id ≠ id ∧ req.user.role ≠ "admin" →
      updateUserById db now req =
        (.respond { status := 403, error := some "Forbidden",
                    message := some "You can only update your own information" }, db)) ∧
    (updates.role.isSome ∧ req.user.role ≠ "admin" →
      ∃ m, updateUserById db now req =
        (.respond { status := 403, error := some "Forbidden",
                    message := some m }, db)) := by
  constructor
  · intro h
    simp only [updateUserById, hid, hbody]
    rw [if_pos h]
  · rintro ⟨hsome, hadmin⟩
    by_cases h1 : req.user.id ≠ id ∧ req.user.role ≠ "admin"
    · refine ⟨"You can only update your own information", ?_⟩
      simp only [updateUserById, hid, hbody]
      rw [if_pos h1]
    · refine ⟨"Only admin users can change user roles", ?_⟩
      simp only [updateUserById, hid, hbody]
      rw [if_neg h1, if_pos ⟨hsome, hadmin⟩]

/-- Witness for C1: a `role=user` caller hitting a foreign id, and the same
caller hitting their own id with a role change in the body. -/
theorem update_authorization_witness :
    updateUserById [] 0 ⟨.num 7, ⟨none, none, some "admin", []⟩, ⟨5, "user"⟩⟩ =
      (.respond { status := 403, error := some "Forbidden",
                  message := some "You can only update your own information" }, []) ∧
    (∃ m, updateUserById [] 0 ⟨.num 5, ⟨none, none, some "admin", []⟩, ⟨5, "user"⟩⟩ =
      (.respond { status := 403, error := some "Forbidden",
                  message := some m }, [])) :=
  ⟨(update_authorization [] 0 ⟨.num 7, ⟨none, none, some "admin", []⟩, ⟨5, "user"⟩⟩
      7 ⟨none, none, some Role.admin⟩ rfl rfl).1 ⟨by decide, by decide⟩,
   (update_authorization [] 0 ⟨.num 5, ⟨none, none, some "admin", []⟩, ⟨5, "user"⟩⟩
      5 ⟨none, none, some Role.admin⟩ rfl rfl).2 ⟨rfl, by decide⟩⟩

/-- C7: the identifier schema rejects NaN (the coercion of a non-numeric
parameter), the infinities, and every finite value that is non-positive or
not an integer; and whenever the schema rejects, each of the three by-id
handlers answers 400 with the validation details. -/
theorem user_id_validation (p : JSNum) (db : List UserRow) (c : Claim)
    (b : RawBody) (now : ℤ) :
    ((p = .nan ∨ p = .inf ∨ p = .negInf ∨
        ∃ q : ℚ, p = .num q ∧ (q ≤ 0 ∨ ¬ q.isInt)) →
      ∃ issues, userIdSchema p = .error issues) ∧
    (∀ issues, userIdSchema p = .error issues →
      fetchUserById db ⟨p, c⟩ = .respond (validationFailedResponse issues) ∧
      updateUserById db now ⟨p, b, c⟩ = (.respond (validationFailedResponse issues), db) ∧
      deleteUserById db ⟨p, c⟩ = (.respond (validationFailedResponse issues), db)) := by
  constructor
  · rintro (rfl | rfl | rfl | ⟨q, rfl, hq⟩)
    · exact ⟨_, rfl⟩
    · exact ⟨_, rfl⟩
    · exact ⟨_, rfl⟩
    · by_cases hi : q.isInt <;> by_cases hp : (0 : ℚ) < q
      · rcases hq with hq | hq
        · exact absurd hp (not_lt.mpr hq)
        · exact absurd hi hq
      · exact ⟨[⟨["id"], "User ID must be a positive integer"⟩],
          by simp [userIdSchema, hi, hp]⟩
      · exact ⟨[⟨["id"], "Expected integer, received float"⟩],
          by simp [userIdSchema, hi, hp]⟩
      · exact ⟨[⟨["id"], "Expected integer, received float"⟩,
                ⟨["id"], "User ID must be a positive integer"⟩],
          by simp [userIdSchema, hi, hp]⟩
  · intro issues h
    refine ⟨?_, ?_, ?_⟩
    · simp [fetchUserById, h]
    · simp [updateUserById, h]
    · simp [deleteUserById, h]

/-- Witness for C7: the NaN coercion of a non-numeric parameter. -/
theorem user_id_validation_witness :
    (∃ issues, userIdSchema .nan = .error issues) ∧
    fetchUserById [] ⟨.nan, ⟨1, "admin"⟩⟩ =
      .respond (validationFailedResponse [⟨["id"], "Expected number, received nan"⟩]) ∧
    updateUserById [] 0 ⟨.nan, ⟨none, none, none, []⟩, ⟨1, "admin"⟩⟩ =
      (.respond (validationFailedResponse [⟨["id"], "Expected number, received nan"⟩]), []) ∧
    deleteUserById [] ⟨.nan, ⟨1, "admin"⟩⟩ =
      (.respond (validationFailedResponse [⟨["id"], "Expected number, received nan"⟩]), []) := by
  have h := user_id_validation .nan [] ⟨1, "admin"⟩ ⟨none, none, none, []⟩ 0
  exact ⟨h.1 (Or.inl rfl), (h.2 _ rfl).1, (h.2 _ rfl).2.1, (h.2 _ rfl).2.2⟩

/-- C6 counterexample: a body failing validation on two fields produces a
400 whose JSON body is exactly `error` plus a single joined `details`
string; the structured (field, message) issue list is not part of the body,
and the joined string drops the field names. -/
theorem validation_error_body_shape :
    updateUserById [] 0 ⟨.num 5, ⟨some "a", some "nope", none, []⟩, ⟨5, "admin"⟩⟩ =
      (.respond { status := 400, error := some "Validation failed",
                  details := some "Invalid input: String must contain at least 2 character(s), Invalid email" },
       []) := by
  rfl

/-- C6 amended: a validation failure is rendered as 400 with error
`Validation failed` and a `details` string joining the individual issue
messages behind `Invalid input: `; the structured issue list itself never
reaches the body — `formatValidationError` flattens it to the messages. -/
theorem validation_error_rendering (db : List UserRow) (now : ℤ)
    (req : UpdateRequest) (id : ℤ) (issues : List Issue)
    (hid : userIdSchema req.paramsId = .ok id)
    (hbody : updateUserSchema req.body = .error issues) :
    updateUserById db now req =
      (.respond { status := 400, error := some "Validation failed",
                  details := some ("Invalid input: " ++
                    String.intercalate ", " (issues.map Issue.message)) }, db) := by
  simp only [updateUserById, hid, hbody]
  rfl

/-- Witness for C6 amended: the empty body on a valid id. -/
theorem validation_error_rendering_witness :
    updateUserById [] 0 ⟨.num 5, ⟨none, none, none, []⟩, ⟨5, "admin"⟩⟩ =
      (.respond { status := 400, error := some "Validation failed",
                  details := some ("Invalid input: " ++ String.intercalate ", "
                    ([Issue.mk [] "At least one field must be provided for update"].map Issue.message)) },
       []) :=
  validation_error_rendering [] 0 ⟨.num 5, ⟨none, none, none, []⟩, ⟨5, "admin"⟩⟩ 5
    [Issue.mk [] "At least one field must be provided for update"] rfl rfl

/-- C9: no service operation exposes the `password` column — the list, get
and update projections carry exactly the six public columns, and the delete
result is projected to exactly `id, email, name, role`. -/
theorem service_projections (db : List UserRow) (id : ℤ)
    (upd : UserUpdates) (now : ℤ) :
    (∀ r ∈ getALLUsers db, Field.password ∉ r.map Prod.fst) ∧
    (∀ r, getUserById db id = .ok r → Field.password ∉ r.map Prod.fst) ∧
    (∀ db2 r, updateUser db id upd now = .ok (db2, some r) →
      Field.password ∉ r.map Prod.fst) ∧
    (∀ db2 r, deleteUser db id = .ok (db2, some r) →
      r.map Prod.fst = [Field.id, Field.email, Field.name, Field.role]) := by
  refine ⟨?_, ?_, ?_, ?_⟩
  · intro r hr
    rcases List.mem_map.mp hr with ⟨u, _, rfl⟩
    simp [selectPublic]
  · intro r hr
    rcases getUserById_ok_shape db id r hr with ⟨u, rfl⟩
    simp [selectPublic]
  · intro db2 r hr
    unfold updateUser at hr
    cases hg : getUserById db id with
    | error e => rw [hg] at hr; cases hr
    | ok v =>
        rw [hg] at hr
        simp only [Except.ok.injEq, Prod.mk.injEq] at hr
        have hhead := hr.2
        rcases List.mem_map.mp (head?_mem hhead) with ⟨u, _, rfl⟩
        simp [selectPublic]
  · intro db2 r hr
    unfold deleteUser at hr
    cases hg : getUserById db id with
    | error e => rw [hg] at hr; cases hr
    | ok v =>
        rw [hg] at hr
        simp only [Except.ok.injEq, Prod.mk.injEq] at hr
        have hhead := hr.2
        rcases List.mem_map.mp (head?_mem hhead) with ⟨u, _, rfl⟩
        simp [selectDeleted]

/-- Witness for C9 on a one-row database. -/
theorem service_projections_witness :
    Field.password ∉ (selectPublic sampleRow).map Prod.fst ∧
    (selectDeleted sampleRow).map Prod.fst =
      [Field.id, Field.email, Field.name, Field.role] := by
  have h := service_projections [sampleRow] 1 ⟨none, none, none⟩ 0
  exact ⟨h.2.1 (selectPublic sampleRow) rfl,
         h.2.2.2 [] (selectDeleted sampleRow) rfl⟩

/-- An admin delete on a database holding no row with the target id reaches
the service and surfaces the `'User not found'` throw as the 404 response. -/
theorem deleteUserById_notFound (db : List UserRow) (id : ℤ) (p : JSNum)
    (c : Claim) (hp : userIdSchema p = .ok id) (hadmin : c.role = "admin")
    (h : ∀ u ∈ db, ¬ u.id = id) :
    deleteUserById db ⟨p, c⟩ = (.respond userNotFoundResponse, db) := by
  have hg := getUserById_notFound db id h
  simp only [deleteUserById, hp]
  rw [if_neg (fun hh => hh.2 hadmin)]
  simp [deleteUser, hg]

/-- C4: when no row carries the target id, `getUserById` throws
`'User not found'` and the get, update (with authorization passing) and
delete handlers each turn that into the 404 `User not found / The requested
user does not exist` response with the database untouched; in particular a
second delete of an already deleted row answers 404. -/
theorem not_found_handling (db : List UserRow) (id : ℤ) (p : JSNum) (c : Claim)
    (b : RawBody) (now : ℤ) (hp : userIdSchema p = .ok id) :
    ((∀ u ∈ db, ¬ u.id = id) →
      getUserById db id = .error "User not found" ∧
      fetchUserById db ⟨p, c⟩ = .respond userNotFoundResponse ∧
      (∀ updates, updateUserSchema b = .ok updates → c.role = "admin" →
        updateUserById db now ⟨p, b, c⟩ = (.respond userNotFoundResponse, db)) ∧
      (c.role = "admin" →
        deleteUserById db ⟨p, c⟩ = (.respond userNotFoundResponse, db))) ∧
    (∀ db2 ret, c.role = "admin" → deleteUser db id = .ok (db2, ret) →
      deleteUserById db2 ⟨p, c⟩ = (.respond userNotFoundResponse, db2)) := by
  constructor
  · intro h
    have hg := getUserById_notFound db id h
    refine ⟨hg, ?_, ?_, ?_⟩
    · simp [fetchUserById, hp, hg]
    · intro updates hu hadmin
      simp only [updateUserById, hp, hu]
      rw [if_neg (fun hh => hh.2 hadmin), if_neg (fun hh => hh.2 hadmin)]
      simp [updateUser, hg]
    · intro hadmin
      exact deleteUserById_notFound db id p c hp hadmin h
  · intro db2 ret hadmin hd
    unfold deleteUser at hd
    cases hg : getUserById db id with
    | error e => rw [hg] at hd; cases hd
    | ok v =>
        rw [hg] at hd
        simp only [Except.ok.injEq, Prod.mk.injEq] at hd
        obtain ⟨hdb, _⟩ := hd
        have hall : ∀ u ∈ db2, ¬ u.id = id := by
          intro u hu
          rw [← hdb] at hu
          simpa using (List.mem_filter.mp hu).2
        exact deleteUserById_notFound db2 id p c hp hadmin hall

/-- Witness for C4: an empty database, and a one-row database deleted then
deleted again. -/
theorem not_found_handling_witness :
    getUserById [] 1 = .error "User not found" ∧
    fetchUserById [] ⟨.num 1, ⟨1, "admin"⟩⟩ = .respond userNotFoundResponse ∧
    updateUserById [] 0 ⟨.num 1, ⟨some "Bob", none, none, []⟩, ⟨1, "admin"⟩⟩ =
      (.respond userNotFoundResponse, []) ∧
    deleteUserById [] ⟨.num 1, ⟨1, "admin"⟩⟩ = (.respond userNotFoundResponse, []) ∧
    deleteUserById ([sampleRow].filter (fun u => ¬ u.id = 1)) ⟨.num 1, ⟨1, "admin"⟩⟩ =
      (.respond userNotFoundResponse, [sampleRow].filter (fun u => ¬ u.id = 1)) := by
  have h1 := (not_found_handling [] 1 (.num 1) ⟨1, "admin"⟩
      ⟨some "Bob", none, none, []⟩ 0 rfl).1 (by intro u hu; cases hu)
  have h2 := (not_found_handling [sampleRow] 1 (.num 1) ⟨1, "admin"⟩
      ⟨some "Bob", none, none, []⟩ 0 rfl).2
      ([sampleRow].filter (fun u => ¬ u.id = 1)) (some (selectDeleted sampleRow)) rfl rfl
  exact ⟨h1.1, h1.2.1, h1.2.2.1 ⟨some "Bob", none, none⟩ rfl rfl, h1.2.2.2 rfl, h2⟩

/-- C10: after a successful `updateUser`, rows with other ids are carried
over unchanged, the target row becomes `applyUpdates` of its old value, and
`applyUpdates` changes exactly the fields present in the validated updates
plus the `updated_at` stamp — `id`, `password`, `created_at` and every
absent optional field keep their old values; moreover the schema's output
is independent of unknown body keys, so they can never reach the store. -/
theorem update_frame (db : List UserRow) (id : ℤ) (upd : UserUpdates) (now : ℤ)
    (db2 : List UserRow) (ret : Option (List (Field × Value)))
    (h : updateUser db id upd now = .ok (db2, ret)) :
    (∀ u ∈ db, ¬ u.id = id → u ∈ db2) ∧
    (∀ u ∈ db, u.id = id → applyUpdates u upd now ∈ db2) ∧
    (∀ u : UserRow,
      (applyUpdates u upd now).id = u.id ∧
      (applyUpdates u upd now).password = u.password ∧
      (applyUpdates u upd now).created_at = u.created_at ∧
      (applyUpdates u upd now).updated_at = now ∧
      (upd.name = none → (applyUpdates u upd now).name = u.name) ∧
      (upd.email = none → (applyUpdates u upd now).email = u.email) ∧
      (upd.role = none → (applyUpdates u upd now).role = u.role) ∧
      (∀ s, upd.name = some s → (applyUpdates u upd now).name = s) ∧
      (∀ s, upd.email = some s → (applyUpdates u upd now).email = s) ∧
      (∀ r, upd.role = some r → (applyUpdates u upd now).role = r.toStr)) ∧
    (∀ b1 b2 : RawBody, b1.name = b2.name → b1.email = b2.email →
      b1.role = b2.role → updateUserSchema b1 = updateUserSchema b2) := by
  unfold updateUser at h
  cases hg : getUserById db id with
  | error e => rw [hg] at h; cases h
  | ok v =>
      rw [hg] at h
      simp only [Except.ok.injEq, Prod.mk.injEq] at h
      obtain ⟨hdb, _⟩ := h
      subst hdb
      refine ⟨?_, ?_, ?_, ?_⟩
      · intro u hu hne
        exact List.mem_map.mpr ⟨u, hu, if_neg hne⟩
      · intro u hu heq
        exact List.mem_map.mpr ⟨u, hu, if_pos heq⟩
      · intro u
        refine ⟨rfl, rfl, rfl, rfl, ?_, ?_, ?_, ?_, ?_, ?_⟩ <;>
          first
          | (intro hn; simp [applyUpdates, hn])
          | (intro s hn; simp [applyUpdates, hn])
      · intro b1 b2 h1 h2 h3
        cases b1
        cases b2
        simp only at h1 h2 h3
        subst h1
        subst h2
        subst h3
        rfl

/-- Witness for C10 on a one-row database with only the name updated. -/
theorem update_frame_witness :
    applyUpdates sampleRow ⟨some "Bob", none, none⟩ 99 ∈
      [applyUpdates sampleRow ⟨some "Bob", none, none⟩ 99] ∧
    (applyUpdates sampleRow ⟨some "Bob", none, none⟩ 99).password = sampleRow.password ∧
    (applyUpdates sampleRow ⟨some "Bob", none, none⟩ 99).updated_at = 99 := by
  have h := update_frame [sampleRow] 1 ⟨some "Bob", none, none⟩ 99
    [applyUpdates sampleRow ⟨some "Bob", none, none⟩ 99]
    (some (selectPublic (applyUpdates sampleRow ⟨some "Bob", none, none⟩ 99))) rfl
  exact ⟨h.2.1 sampleRow (List.mem_singleton.mpr rfl) rfl,
         (h.2.2.1 sampleRow).2.1, (h.2.2.1 sampleRow).2.2.2.1⟩

end Acquisitions






